import Mathlib

/-!
Verification of the progress-parsing / ETA-estimation core of
`src/video_encoder.py` (a CLI driver for an external video encoder).

Modelling conventions (shallow embedding):
* Python `float` values are modelled as `ℚ` (exact rationals); the claims
  under study are structural, not about IEEE rounding.
* Python `int` is `ℤ` (or `ℕ` where the source guarantees non-negativity).
* Fallible Python code (expressions that may raise) is modelled with
  `Option`: `none` means an exception propagates to the enclosing handler.
* Strings are processed as `List Char` (`String.data`), matching Python's
  per-character semantics for `strip`, `split`, and the regexes used.
* `float(...)` / `int(...)` literal parsing is modelled by `pyFloatL` /
  `pyIntL` below over the grammar sign/digits/point/exponent (underscore
  separators and `inf`/`nan`, which never occur in the probed fields or in
  the regex captures `[0-9.]+` / `[0-9]+`, are not modelled).
-/

namespace VideoEncoder

/-- Python whitespace characters stripped by `str.strip()` (ASCII range). -/
def pySpace (c : Char) : Bool :=
  c = ' ' || c = '\t' || c = '\n' || c = '\x0d' || c = '\x0b' || c = '\x0c'

/-- Model of Python `str.strip()` on a character list. -/
def pyStrip (cs : List Char) : List Char :=
  ((cs.dropWhile pySpace).reverse.dropWhile pySpace).reverse

/-- Model of Python `str.split(sep)` for a single-character separator:
splits at every occurrence, keeping empty pieces; always non-empty. -/
def splitOnChar (sep : Char) : List Char → List (List Char)
  | [] => [[]]
  | c :: rest =>
    if c = sep then [] :: splitOnChar sep rest
    else
      match splitOnChar sep rest with
      | [] => [[c]]
      | g :: gs => (c :: g) :: gs

/-- Numeric value of a list of decimal digit characters (leading zeros ok). -/
def digitsVal (cs : List Char) : ℕ :=
  cs.foldl (fun n c => 10 * n + (c.toNat - 48)) 0

/-- Python `int(float_value)`: truncation toward zero on a rational. -/
def pyTrunc (q : ℚ) : ℤ :=
  if 0 ≤ q then ⌊q⌋ else -⌊-q⌋

/-- Decimal digits of `n`, least significant first; `fuel` bounds the
recursion (any `fuel ≥ n` is exact, and `n` itself is always enough). -/
def natDigitsRev (fuel n : ℕ) : List Char :=
  match fuel with
  | 0 => []
  | f + 1 => if n = 0 then [] else Char.ofNat (48 + n % 10) :: natDigitsRev f (n / 10)

/-- Decimal rendering of a natural number, as Python `str` produces it. -/
def natToChars (n : ℕ) : List Char :=
  if n = 0 then ['0'] else (natDigitsRev n n).reverse

/-- Decimal rendering of an integer, as Python `str` produces it. -/
def intToChars (i : ℤ) : List Char :=
  if i < 0 then '-' :: natToChars i.natAbs else natToChars i.natAbs

/-- Python format spec `:02d` (and `:02`) on an integer: pad the decimal
rendering with zeros on the left up to width 2. -/
def pad2 (n : ℤ) : List Char :=
  let s := intToChars n
  if s.length < 2 then List.replicate (2 - s.length) '0' ++ s else s

/-- Lines 269-273 of `encode_video`: decompose `seconds_remaining` with
`// 3600`, `(% 3600) // 60`, `% 60` (Python floor division / modulo, which
for the positive divisors used here agree with `Int.ediv` / `Int.emod`)
and render `HH:MM:SS` with `:02d` padding. -/
def formatTimeRemaining (sr : ℤ) : String :=
  ⟨pad2 (sr / 3600) ++ ':' :: pad2 (sr % 3600 / 60) ++ ':' :: pad2 (sr % 60)⟩

/-- `format_duration(seconds)` from the source: `None` or `0` renders as
`"00:00:00"`, otherwise `int(seconds)` is decomposed as hours, minutes,
seconds with `:02` padding. -/
def format_duration (seconds : Option ℚ) : String :=
  match seconds with
  | none => "00:00:00"
  | some q =>
    if q = 0 then "00:00:00"
    else
      let n := pyTrunc q
      ⟨pad2 (n / 3600) ++ ':' :: pad2 (n % 3600 / 60) ++ ':' :: pad2 (n % 60)⟩

/-- `create_progress_bar(progress, width=20)` from the source:
`filled_width = int(width * progress / 100)` then `'█' * filled_width`
followed by `'░' * (width - filled_width)` (Python string repetition with a
negative count yields the empty string, hence `Int.toNat`). -/
def create_progress_bar (progress : ℚ) (width : ℕ := 20) : String :=
  let filled_width := pyTrunc ((width : ℚ) * progress / 100)
  ⟨List.replicate filled_width.toNat '█' ++
    List.replicate ((width : ℤ) - filled_width).toNat '░'⟩

/-- Round a rational to the nearest integer, ties to even: the rounding
used by Python float formatting (`:.1f`) on the exactly-represented values
appearing in the claims. -/
def roundHalfEven (q : ℚ) : ℤ :=
  let f := ⌊q⌋
  if q - f < 1 / 2 then f
  else if 1 / 2 < q - f then f + 1
  else if f % 2 = 0 then f else f + 1

/-- Python format spec `:.1f`: one digit after the decimal point, rounding
half to even. -/
def fmt1 (q : ℚ) : String :=
  let n := roundHalfEven (q * 10)
  ⟨(if n < 0 then ['-'] else []) ++ natToChars (n.natAbs / 10) ++
    '.' :: natToChars (n.natAbs % 10)⟩

/-- `calculate_size_reduction(original, encoded)` from the source, applied
to the two byte sizes read from disk.  `none` models the
`ZeroDivisionError` raised when the original file has size 0 (propagating
to `encode_video`'s handler). -/
def calculate_size_reduction (original_size encoded_size : ℕ) : Option String :=
  if original_size = 0 then none
  else
    some (⟨"Original: ".data ++ (fmt1 ((original_size : ℚ) / 1048576)).data ++
      "MB\nEncoded: ".data ++ (fmt1 ((encoded_size : ℚ) / 1048576)).data ++
      "MB\nReduction: ".data ++
      (fmt1 (((original_size : ℚ) - (encoded_size : ℚ)) / (original_size : ℚ) * 100)).data ++
      "%".data⟩)

/-- Lines 308-316 of `encode_video`: a non-zero exit code reports failure
(no log); exit code 0 with the output file present yields the
size-reduction log; exit code 0 with the file missing yields no log.
`none` is "no log produced" (both the reported-failure returns and the
exception path return `(None, None)`, after which `encode_and_log` writes
no log file). -/
def encodeOutcome (return_code : ℤ) (output_exists : Bool)
    (original_size encoded_size : ℕ) : Option String :=
  if return_code ≠ 0 then none
  else if output_exists then calculate_size_reduction original_size encoded_size
  else none

/-- Model of Python `int(s)` on a string: surrounding whitespace, an
optional sign, then a non-empty run of decimal digits. -/
def pyIntL (cs : List Char) : Option ℤ :=
  let t := pyStrip cs
  let sr : Bool × List Char :=
    match t with
    | '+' :: r => (true, r)
    | '-' :: r => (false, r)
    | r => (true, r)
  if sr.2 ≠ [] ∧ sr.2.all Char.isDigit then
    some (if sr.1 then (digitsVal sr.2 : ℤ) else -(digitsVal sr.2 : ℤ))
  else none

/-- Syntactic decomposition of a Python float literal: sign, integer-part
digits, fractional-part digits, exponent sign, exponent digits (empty
exponent digits = no exponent written). -/
structure FloatParts where
  sign : Bool
  ip : List Char
  fp : List Char
  esign : Bool
  ed : List Char
deriving DecidableEq, Repr

/-- Parse the exponent suffix of a Python float literal (or the empty tail). -/
def pyExpParts : List Char → Option (Bool × List Char)
  | [] => some (true, [])
  | c :: rest =>
    if c = 'e' || c = 'E' then
      let sd : Bool × List Char :=
        match rest with
        | '+' :: r => (true, r)
        | '-' :: r => (false, r)
        | r => (true, r)
      let ds := sd.2.takeWhile Char.isDigit
      if ds.isEmpty || ds.length ≠ sd.2.length then none
      else some (sd.1, ds)
    else none

/-- Syntactic layer of Python `float(s)`: whitespace-stripped, optional
sign, then `digits [. digits]` or `. digits`, with an optional exponent. -/
def pyFloatParts (cs : List Char) : Option FloatParts :=
  let t := pyStrip cs
  let sr : Bool × List Char :=
    match t with
    | '+' :: r => (true, r)
    | '-' :: r => (false, r)
    | r => (true, r)
  let ip := sr.2.takeWhile Char.isDigit
  let r1 := sr.2.drop ip.length
  match r1 with
  | '.' :: r2 =>
    let fp := r2.takeWhile Char.isDigit
    let r3 := r2.drop fp.length
    if ip.isEmpty && fp.isEmpty then none
    else (pyExpParts r3).map fun e => ⟨sr.1, ip, fp, e.1, e.2⟩
  | r =>
    if ip.isEmpty then none
    else (pyExpParts r).map fun e => ⟨sr.1, ip, [], e.1, e.2⟩

/-- The rational value denoted by a parsed float literal. -/
def FloatParts.toQ (p : FloatParts) : ℚ :=
  let mant : ℚ := (digitsVal p.ip : ℚ) + (digitsVal p.fp : ℚ) / 10 ^ p.fp.length
  let signed : ℚ := if p.sign then mant else -mant
  if p.ed.isEmpty then signed
  else if p.esign then signed * 10 ^ digitsVal p.ed
  else signed / 10 ^ digitsVal p.ed

/-- Model of Python `float(s)`: `none` when `float` raises `ValueError`. -/
def pyFloatL (cs : List Char) : Option ℚ :=
  (pyFloatParts cs).map FloatParts.toQ

/-- Result of `get_video_info` (the Media Prober): the dictionary with keys
`frame_count`, `fps`, `duration`.  `none` models Python `None`. -/
structure MediaInfo where
  frame_count : Option ℤ
  fps : Option ℚ
  duration : Option ℚ
deriving DecidableEq, Repr

/-- Lines 126-131 of `get_video_info`: the frame-rate field is parsed as
`N/D` (via `int` on both parts, raising on a malformed split and on
division by zero) when it contains a slash, else directly via `float`.
`none` models a raised exception. -/
def parseRate (cs : List Char) : Option ℚ :=
  if cs.contains '/' then
    match splitOnChar '/' cs with
    | [a, b] =>
      match pyIntL a, pyIntL b with
      | some num, some den =>
        if den = 0 then none else some ((num : ℚ) / (den : ℚ))
      | _, _ => none
    | _ => none
  else pyFloatL cs

/-- The comma-separated fields of the probe tool's output
(`probe_output = ...strip().split(',')` at line 123). -/
def probeFields (s : String) : List (List Char) :=
  splitOnChar ',' (pyStrip s.data)

/-- The body of `get_video_info`'s `try` block (lines 123-143), given the
text output of the probe tool: parse frame rate from field 0, duration
from field 1 when present, and derive
`frame_count = int(duration * fps) if duration and fps else None`
(Python truthiness: a parsed value of `0` is falsy).  `none` models an
exception reaching the `except` handler. -/
def parseProbe (s : String) : Option MediaInfo :=
  let fields := probeFields s
  match parseRate (fields.headD []) with
  | none => none
  | some fps =>
    match fields.drop 1 with
    | [] => some ⟨none, some fps, none⟩
    | d :: _ =>
      match pyFloatL d with
      | none => none
      | some dur =>
        some ⟨if dur ≠ 0 ∧ fps ≠ 0 then some (pyTrunc (dur * fps)) else none,
          some fps, some dur⟩

/-- `get_video_info` as a function of the probe tool's outcome: `none` is a
failed tool invocation (non-zero exit); any exception inside the `try`
block is caught and converted to the all-`None` dictionary (lines 144-150). -/
def get_video_info (probe_result : Option String) : MediaInfo :=
  match probe_result with
  | none => ⟨none, none, none⟩
  | some s => (parseProbe s).getD ⟨none, none, none⟩

/-- Drop a literal token from the front of a character list, or fail. -/
def dropLit (lit cs : List Char) : Option (List Char) :=
  if List.isPrefixOf lit cs then some (cs.drop lit.length) else none

/-- `re.search` driver: try an anchored matcher at position 0, then at each
successive position, returning the first success (as Python's scan does). -/
def searchA {α : Type} (f : List Char → Option α) : List Char → Option α
  | [] => f []
  | c :: rest =>
    match f (c :: rest) with
    | some v => some v
    | none => searchA f rest

/-- Anchored matcher for `frame=\s*(\d+)`: the captured frame number. -/
def tryFrame (cs : List Char) : Option ℕ :=
  match dropLit "frame=".data cs with
  | none => none
  | some r =>
    let r1 := r.dropWhile pySpace
    let ds := r1.takeWhile Char.isDigit
    if ds = [] then none else some (digitsVal ds)

/-- Anchored matcher for `speed=\s*([\d.]+)x`: the capture (digits/dots),
which the source then feeds to `float`. -/
def trySpeed (cs : List Char) : Option (List Char) :=
  match dropLit "speed=".data cs with
  | none => none
  | some r =>
    let r1 := r.dropWhile pySpace
    let cap := r1.takeWhile (fun c => c.isDigit || c = '.')
    if cap = [] then none
    else
      match r1.drop cap.length with
      | 'x' :: _ => some cap
      | _ => none

/-- Anchored matcher for `fps=\s*(\d+)`. -/
def tryFps (cs : List Char) : Option ℕ :=
  match dropLit "fps=".data cs with
  | none => none
  | some r =>
    let r1 := r.dropWhile pySpace
    let ds := r1.takeWhile Char.isDigit
    if ds = [] then none else some (digitsVal ds)

/-- Anchored matcher for `size=\s*(\d+)KiB`: the reported size in KiB. -/
def trySize (cs : List Char) : Option ℕ :=
  match dropLit "size=".data cs with
  | none => none
  | some r =>
    let r1 := r.dropWhile pySpace
    let ds := r1.takeWhile Char.isDigit
    if ds = [] then none
    else
      match dropLit "KiB".data (r1.drop ds.length) with
      | some _ => some (digitsVal ds)
      | none => none

/-- Anchored matcher for `time=(\d+):(\d+):(\d+\.\d+)`: captures hours,
minutes, and the integer part of the seconds group (the source then drops
the fraction with `split('.')[0]`). -/
def tryTime (cs : List Char) : Option (List Char × List Char × List Char) :=
  match dropLit "time=".data cs with
  | none => none
  | some r =>
    let h := r.takeWhile Char.isDigit
    if h = [] then none
    else
      match r.drop h.length with
      | ':' :: r2 =>
        let m := r2.takeWhile Char.isDigit
        if m = [] then none
        else
          match r2.drop m.length with
          | ':' :: r3 =>
            let sI := r3.takeWhile Char.isDigit
            if sI = [] then none
            else
              match r3.drop sI.length with
              | '.' :: r4 =>
                if r4.takeWhile Char.isDigit = [] then none
                else some (h, m, sI)
              | _ => none
          | _ => none
      | _ => none

/-- Anchored matcher for `bitrate=\s*([\d.]+)kbits/s`: the capture, which
the source then feeds to `float`. -/
def tryBitrate (cs : List Char) : Option (List Char) :=
  match dropLit "bitrate=".data cs with
  | none => none
  | some r =>
    let r1 := r.dropWhile pySpace
    let cap := r1.takeWhile (fun c => c.isDigit || c = '.')
    if cap = [] then none
    else
      match dropLit "kbits/s".data (r1.drop cap.length) with
      | some _ => some cap
      | none => none

/-- Line 266 of `encode_video`: `remaining_frames = total_frames - current_frame`
(no clamping of any kind). -/
def remainingFrames (total_frames : ℤ) (current_frame : ℕ) : ℤ :=
  total_frames - (current_frame : ℤ)

/-- Line 268: `seconds_remaining = int(remaining_frames / (video_fps * encoding_speed))`
(true division producing a float, then `int` truncation toward zero). -/
def secondsRemaining (total_frames : ℤ) (current_frame : ℕ)
    (video_fps encoding_speed : ℚ) : ℤ :=
  pyTrunc ((remainingFrames total_frames current_frame : ℚ) /
    (video_fps * encoding_speed))

/-- Line 275: `progress_percent = (current_frame / total_frames) * 100`. -/
def progressPercent (current_frame : ℕ) (total_frames : ℤ) : ℚ :=
  ((current_frame : ℚ) / (total_frames : ℚ)) * 100

/-- The values interpolated into the `enhanced_progress` status line
(lines 288-298); the fixed-width column formatting itself is presentation
glue and is not modelled further. -/
structure RenderData where
  current_frame : ℕ
  total_frames : ℤ
  progress_bar : String
  progress_percent : ℚ
  current_fps : ℕ
  current_size_mb : ℚ
  estimated_final_size_mb : ℚ
  encoded_time : String
  video_duration_formatted : String
  time_remaining : String
  current_bitrate : ℚ
  encoding_speed : ℚ
deriving DecidableEq, Repr

/-- The per-line action of `encode_video`'s read loop: skip an
empty-after-strip line; `print(line)` on its own line (pass-through);
`print(f"\r…line…", end='')` (raw line overwriting the status row); or
render the full status row in place. -/
inductive Action where
  | ignore : Action
  | passThrough : String → Action
  | overwriteRaw : String → Action
  | render : RenderData → Action
deriving DecidableEq, Repr

/-- The pattern `x = 0; if m: x = float(m.group(1))` used for the speed
(lines 240-242) and bitrate (lines 260-262) captures: an absent match
defaults to `0`, a present capture goes through `float` (which may raise,
modelled by `none`). -/
def floatOrZero : Option (List Char) → Option ℚ
  | none => some 0
  | some g => pyFloatL g

/-- Lines 249-257: the elapsed encoded time string — the captured
`H`, `M` groups and the integer part of the seconds group joined with
colons, defaulting to `"00:00:00"` when `time=` did not match. -/
def encodedTimeStr : Option (List Char × List Char × List Char) → String
  | some t => ⟨t.1 ++ ':' :: t.2.1 ++ ':' :: t.2.2⟩
  | none => "00:00:00"

/-- Lines 279-284: estimated final size in MB — current output size
divided by the progress fraction when the output file exists and progress
is positive, else `0`. -/
def estFinalSizeMB (output_size : Option ℕ) (pp : ℚ) : ℚ :=
  match output_size with
  | some sz => (if 0 < pp then (sz : ℚ) / (pp / 100) else 0) / 1048576
  | none => 0

/-- Lines 226-303 of `encode_video`: processing of a stripped line that
starts with `frame=`.  Field extraction order and fallibility follow the
source: the speed capture is passed to `float` first (line 242), the
bitrate capture later (line 262) — either may raise, modelled by `none` —
and only then is the render condition
`frame_match and total_frames and video_fps and encoding_speed > 0`
evaluated (line 264), with Python truthiness for `total_frames` and
`video_fps` (a value of `0` is falsy). -/
def observeFrame (info : MediaInfo) (output_size : Option ℕ)
    (line : List Char) : Option Action :=
  match floatOrZero (searchA trySpeed line) with
  | none => none
  | some encoding_speed =>
    match floatOrZero (searchA tryBitrate line) with
    | none => none
    | some current_bitrate =>
      match searchA tryFrame line, info.frame_count, info.fps with
      | some cf, some tf, some fr =>
        if tf ≠ 0 ∧ fr ≠ 0 ∧ 0 < encoding_speed then
          some (.render
            { current_frame := cf
              total_frames := tf
              progress_bar := create_progress_bar (progressPercent cf tf)
              progress_percent := progressPercent cf tf
              current_fps := (searchA tryFps line).getD 0
              current_size_mb := ((searchA trySize line).getD 0 : ℚ) / 1024
              estimated_final_size_mb :=
                estFinalSizeMB output_size (progressPercent cf tf)
              encoded_time := encodedTimeStr (searchA tryTime line)
              video_duration_formatted := format_duration info.duration
              time_remaining :=
                formatTimeRemaining (secondsRemaining tf cf fr encoding_speed)
              current_bitrate := current_bitrate
              encoding_speed := encoding_speed })
        else some (.overwriteRaw ⟨line⟩)
      | _, _, _ => some (.overwriteRaw ⟨line⟩)

/-- The body of `encode_video`'s read loop for one raw line (lines
217-306): strip, skip if empty, dispatch on the `frame=` marker, pass
other lines through on their own line.  `output_size` is the encoded
file's current size when it exists on disk (`none` = not present);
`none` as result models an exception escaping to the handler at line 318. -/
def observe (info : MediaInfo) (output_size : Option ℕ) (raw : String) :
    Option Action :=
  let line := pyStrip raw.data
  if line = [] then some .ignore
  else if List.isPrefixOf "frame=".data line then observeFrame info output_size line
  else some (.passThrough ⟨line⟩)

/-! ### Dispatch lemmas for `observe` / `observeFrame` -/

theorem isPrefixOf_frame_ne_nil {line : List Char}
    (h : List.isPrefixOf "frame=".data line = true) : line ≠ [] := by
  intro he
  rw [he] at h
  exact absurd h (by decide)

theorem observe_ignore (info : MediaInfo) (sz : Option ℕ) (l : String)
    (h : pyStrip l.data = []) : observe info sz l = some .ignore := by
  unfold observe
  simp [h]

theorem observe_pass (info : MediaInfo) (sz : Option ℕ) (l : String)
    (h1 : pyStrip l.data ≠ [])
    (h2 : List.isPrefixOf "frame=".data (pyStrip l.data) = false) :
    observe info sz l = some (.passThrough ⟨pyStrip l.data⟩) := by
  unfold observe
  simp [h1, h2]

theorem observe_frameLine (info : MediaInfo) (sz : Option ℕ) (l : String)
    (h : List.isPrefixOf "frame=".data (pyStrip l.data) = true) :
    observe info sz l = observeFrame info sz (pyStrip l.data) := by
  unfold observe
  simp [isPrefixOf_frame_ne_nil h, h]

theorem observeFrame_render (info : MediaInfo) (sz : Option ℕ)
    (line : List Char) (cf : ℕ) (tf : ℤ) (fr es br : ℚ)
    (hsp : floatOrZero (searchA trySpeed line) = some es) (hes : 0 < es)
    (hbr : floatOrZero (searchA tryBitrate line) = some br)
    (hframe : searchA tryFrame line = some cf)
    (htf : info.frame_count = some tf) (htf0 : tf ≠ 0)
    (hfr : info.fps = some fr) (hfr0 : fr ≠ 0) :
    observeFrame info sz line = some (.render
      { current_frame := cf
        total_frames := tf
        progress_bar := create_progress_bar (progressPercent cf tf)
        progress_percent := progressPercent cf tf
        current_fps := (searchA tryFps line).getD 0
        current_size_mb := ((searchA trySize line).getD 0 : ℚ) / 1024
        estimated_final_size_mb := estFinalSizeMB sz (progressPercent cf tf)
        encoded_time := encodedTimeStr (searchA tryTime line)
        video_duration_formatted := format_duration info.duration
        time_remaining := formatTimeRemaining (secondsRemaining tf cf fr es)
        current_bitrate := br
        encoding_speed := es }) := by
  unfold observeFrame
  rw [hsp, hbr, hframe, htf, hfr]
  simp [htf0, hfr0, hes]

theorem observeFrame_noRender (info : MediaInfo) (sz : Option ℕ)
    (line : List Char) (es br : ℚ)
    (hsp : floatOrZero (searchA trySpeed line) = some es) (hes : ¬ 0 < es)
    (hbr : floatOrZero (searchA tryBitrate line) = some br) :
    observeFrame info sz line = some (.overwriteRaw ⟨line⟩) := by
  unfold observeFrame
  rw [hsp, hbr]
  rcases hF : searchA tryFrame line with _ | cf <;>
    rcases hC : info.frame_count with _ | tf <;>
      rcases hP : info.fps with _ | fr <;> simp_all

theorem observeFrame_speedRaise (info : MediaInfo) (sz : Option ℕ)
    (line : List Char)
    (hsp : floatOrZero (searchA trySpeed line) = none) :
    observeFrame info sz line = none := by
  unfold observeFrame
  rw [hsp]

theorem observeFrame_bitrateRaise (info : MediaInfo) (sz : Option ℕ)
    (line : List Char) (es : ℚ)
    (hsp : floatOrZero (searchA trySpeed line) = some es)
    (hbr : floatOrZero (searchA tryBitrate line) = none) :
    observeFrame info sz line = none := by
  unfold observeFrame
  rw [hsp, hbr]

/-! ### Facts about decimal rendering and line splitting -/

theorem natDigitsRev_no_newline (fuel n : ℕ) : '\n' ∉ natDigitsRev fuel n := by
  induction fuel generalizing n with
  | zero => simp [natDigitsRev]
  | succ f ih =>
    unfold natDigitsRev
    by_cases h0 : n = 0
    · simp [h0]
    · rw [if_neg h0]
      intro hmem
      rcases List.mem_cons.mp hmem with hc | hc
      · have hlt : n % 10 < 10 := Nat.mod_lt _ (by norm_num)
        interval_cases h : n % 10 <;> exact absurd hc (by decide)
      · exact ih (n / 10) hc

theorem natToChars_no_newline (n : ℕ) : '\n' ∉ natToChars n := by
  unfold natToChars
  by_cases h0 : n = 0
  · simp [h0]
  · rw [if_neg h0, List.mem_reverse]
    exact natDigitsRev_no_newline n n

theorem fmt1_no_newline (q : ℚ) : '\n' ∉ (fmt1 q).data := by
  unfold fmt1
  intro hmem
  rcases List.mem_append.mp hmem with hc | hc
  · rcases List.mem_append.mp hc with hd | hd
    · by_cases hneg : roundHalfEven (q * 10) < 0 <;> simp [hneg] at hd
    · exact natToChars_no_newline _ hd
  · rcases List.mem_cons.mp hc with hd | hd
    · exact absurd hd (by decide)
    · exact natToChars_no_newline _ hd

theorem splitOnChar_not_mem (sep : Char) (a : List Char) (h : sep ∉ a) :
    splitOnChar sep a = [a] := by
  induction a with
  | nil => rfl
  | cons c rest ih =>
    have hc : ¬ (c = sep) := fun he => h (he ▸ List.mem_cons_self c rest)
    rw [splitOnChar, if_neg hc,
      ih (fun hm => h (List.mem_cons_of_mem _ hm))]

theorem splitOnChar_append (sep : Char) (a b : List Char) (h : sep ∉ a) :
    splitOnChar sep (a ++ sep :: b) = a :: splitOnChar sep b := by
  induction a with
  | nil =>
    show splitOnChar sep (sep :: b) = [] :: splitOnChar sep b
    rw [splitOnChar, if_pos rfl]
  | cons c rest ih =>
    have hc : ¬ (c = sep) := fun he => h (he ▸ List.mem_cons_self c rest)
    rw [List.cons_append, splitOnChar, if_neg hc,
      ih (fun hm => h (List.mem_cons_of_mem _ hm))]

/-- Projection of the rendered status data out of a loop action, for
stating properties of particular rendered fields. -/
def renderDataOf : Option Action → Option RenderData
  | some (.render rd) => some rd
  | _ => none

/-! ### The claims -/

/-- C1 (amended): `remaining_frames` is `total_frames - current_frame`
with no clamping at 0; this agrees with the claimed clamped value exactly
when `current_frame ≤ total_frames`, and is negative (feeding a negative
`seconds_remaining` into the ETA rendering) when `current_frame` exceeds
`total_frames`.  The last conjunct records that this unclamped value is
the one used to compute `seconds_remaining`. -/
theorem claim_C1 (tf : ℤ) (cf : ℕ) :
    remainingFrames tf cf = tf - cf ∧
    ((cf : ℤ) ≤ tf → remainingFrames tf cf = max (tf - cf) 0) ∧
    ((tf < (cf : ℤ)) → remainingFrames tf cf < 0) ∧
    ∀ fr es : ℚ, secondsRemaining tf cf fr es =
      pyTrunc ((remainingFrames tf cf : ℚ) / (fr * es)) := by
  refine ⟨rfl, fun h => ?_, fun h => ?_, fun fr es => rfl⟩ <;>
    unfold remainingFrames <;> omega

/-- Witness for C1 at 40 of 100 frames. -/
theorem claim_C1_witness :
    remainingFrames 100 40 = 60 ∧ remainingFrames 100 40 = max (100 - 40) 0 := by
  constructor
  · rw [(claim_C1 100 40).1]; norm_num
  · have h := (claim_C1 100 40).2.1 (by norm_num)
    simpa using h

/-- Counterexample to C1 as stated: the code does not clamp
`remaining_frames` at 0 — with 100 total frames, frame rate 1 and a
reported `frame=200 speed=1.0x`, the loop renders a status line whose
time-remaining field is the negative `"-1:58:20"`. -/
theorem claim_C1_counterexample :
    remainingFrames 100 200 = -100 ∧
    remainingFrames 100 200 ≠ max (100 - 200) 0 ∧
    (renderDataOf (observe ⟨some 100, some 1, some 100⟩ none
        "frame=200 speed=1.0x")).map RenderData.time_remaining =
      some "-1:58:20" := by
  refine ⟨by decide, by decide, ?_⟩
  have hd : observe ⟨some 100, some 1, some 100⟩ none "frame=200 speed=1.0x" =
      observeFrame ⟨some 100, some 1, some 100⟩ none
        "frame=200 speed=1.0x".data := by
    rw [observe_frameLine ⟨some 100, some 1, some 100⟩ none
      "frame=200 speed=1.0x" (by decide),
      show pyStrip "frame=200 speed=1.0x".data = "frame=200 speed=1.0x".data
        from by decide]
  have hsp : floatOrZero (searchA trySpeed "frame=200 speed=1.0x".data) =
      some 1 := by
    rw [show searchA trySpeed "frame=200 speed=1.0x".data = some "1.0".data
      from by decide]
    show pyFloatL "1.0".data = some 1
    rw [pyFloatL, show pyFloatParts "1.0".data =
      some ⟨true, ['1'], ['0'], true, []⟩ from by decide]
    have d1 : digitsVal ['1'] = 1 := by decide
    have d0 : digitsVal ['0'] = 0 := by decide
    simp [FloatParts.toQ, d1, d0]
  have hbr : floatOrZero (searchA tryBitrate "frame=200 speed=1.0x".data) =
      some 0 := by
    rw [show searchA tryBitrate "frame=200 speed=1.0x".data = none
      from by decide]
    rfl
  rw [hd, observeFrame_render _ _ _ 200 100 1 1 0 hsp (by norm_num) hbr
    (by decide) rfl (by decide) rfl (by norm_num)]
  have hsr : secondsRemaining 100 200 1 1 = -100 := by
    unfold secondsRemaining remainingFrames pyTrunc
    norm_num
  simp only [renderDataOf, Option.map_some']
  rw [hsr]
  decide

/-- C2: every input line that is non-empty after the loop's `strip()` and
does not start with `frame=` is passed through unchanged and printed on
its own line (`print(line)`); in particular a line carrying no surrounding
whitespace is reproduced byte-for-byte. -/
theorem claim_C2 (info : MediaInfo) (sz : Option ℕ) (l : String)
    (h1 : pyStrip l.data ≠ [])
    (h2 : List.isPrefixOf "frame=".data (pyStrip l.data) = false) :
    observe info sz l = some (.passThrough ⟨pyStrip l.data⟩) ∧
    (pyStrip l.data = l.data → observe info sz l = some (.passThrough l)) := by
  refine ⟨observe_pass info sz l h1 h2, fun hid => ?_⟩
  rw [observe_pass info sz l h1 h2, hid]

/-- Witness for C2 at the diagnostic line from the spec example. -/
theorem claim_C2_witness :
    observe ⟨none, none, none⟩ none "[libsvtav1] Encoder v1.0" =
      some (.passThrough "[libsvtav1] Encoder v1.0") := by
  have h := claim_C2 ⟨none, none, none⟩ none "[libsvtav1] Encoder v1.0"
    (by decide) (by decide)
  exact h.2 (by decide)

/-- C6: for `0 ≤ current_frame ≤ total_frames` with `total_frames`
positive, `progress_percent = (current_frame / total_frames) * 100` is
monotonically non-decreasing in `current_frame` and equals exactly `100`
at `current_frame = total_frames`. -/
theorem claim_C6 (cf1 cf2 : ℕ) (tf : ℤ) (htf : 0 < tf)
    (h12 : cf1 ≤ cf2) (h2 : (cf2 : ℤ) ≤ tf) :
    progressPercent cf1 tf ≤ progressPercent cf2 tf ∧
    ((cf2 : ℤ) = tf → progressPercent cf2 tf = 100) := by
  have htfQ : (0 : ℚ) < (tf : ℚ) := by exact_mod_cast htf
  constructor
  · unfold progressPercent
    have hc : ((cf1 : ℚ)) ≤ (cf2 : ℚ) := by exact_mod_cast h12
    gcongr
  · intro he
    unfold progressPercent
    have hce : ((cf2 : ℚ)) = (tf : ℚ) := by exact_mod_cast he
    rw [hce, div_self (ne_of_gt htfQ)]
    norm_num

/-- Witness for C6 at `current_frame` 5 then 10 of `total_frames` 10. -/
theorem claim_C6_witness :
    progressPercent 5 10 ≤ progressPercent 10 10 ∧ progressPercent 10 10 = 100 := by
  have h := claim_C6 5 10 10 (by norm_num) (by norm_num) (by norm_num)
  exact ⟨h.1, h.2 (by norm_num)⟩

/-- C7: for every non-negative `seconds_remaining` the rendered ETA is the
zero-padded `HH:MM:SS` decomposition (minutes and seconds in `[0,60)`,
hours unbounded), with `3661 → "01:01:01"`, `0 → "00:00:00"` and
`360000 → "100:00:00"` (no truncation at or above 100 hours). -/
theorem claim_C7 (sr : ℤ) (h : 0 ≤ sr) :
    (∃ hh mm ss : ℤ,
      formatTimeRemaining sr = ⟨pad2 hh ++ ':' :: pad2 mm ++ ':' :: pad2 ss⟩ ∧
      sr = 3600 * hh + 60 * mm + ss ∧
      0 ≤ hh ∧ 0 ≤ mm ∧ mm < 60 ∧ 0 ≤ ss ∧ ss < 60) ∧
    formatTimeRemaining 3661 = "01:01:01" ∧
    formatTimeRemaining 0 = "00:00:00" ∧
    formatTimeRemaining 360000 = "100:00:00" := by
  refine ⟨⟨sr / 3600, sr % 3600 / 60, sr % 60,
    rfl, ?_, ?_, ?_, ?_, ?_, ?_⟩, by decide, by decide, by decide⟩ <;> omega

/-- Witness for C7: the three concrete renderings. -/
theorem claim_C7_witness :
    formatTimeRemaining 3661 = "01:01:01" ∧ formatTimeRemaining 0 = "00:00:00" ∧
    formatTimeRemaining 360000 = "100:00:00" :=
  (claim_C7 0 le_rfl).2

/-- C8: for every `progress_percent` in `[0,100]` the width-20 bar is
`floor(20 * percent / 100)` filled cells followed by the complementary
count of empty cells; `0 → 0` filled and `100 → 20` filled. -/
theorem claim_C8 (p : ℚ) (h0 : 0 ≤ p) (h1 : p ≤ 100) :
    (create_progress_bar p).data =
      List.replicate (⌊20 * p / 100⌋).toNat '█' ++
        List.replicate (20 - (⌊20 * p / 100⌋).toNat) '░' ∧
    (⌊20 * p / 100⌋).toNat ≤ 20 ∧
    (p = 0 → (⌊20 * p / 100⌋).toNat = 0) ∧
    (p = 100 → (⌊20 * p / 100⌋).toNat = 20) := by
  have hq0 : (0 : ℚ) ≤ 20 * p / 100 := by positivity
  have hfl0 : 0 ≤ ⌊20 * p / 100⌋ := Int.floor_nonneg.mpr hq0
  have hfl20 : ⌊20 * p / 100⌋ ≤ 20 := by
    have hle : 20 * p / 100 ≤ (20 : ℚ) := by linarith
    calc ⌊20 * p / 100⌋ ≤ ⌊(20 : ℚ)⌋ := Int.floor_le_floor hle
      _ = 20 := by norm_num
  refine ⟨?_, by omega, fun hp => by subst hp; norm_num; all_goals omega,
    fun hp => by subst hp; norm_num; all_goals omega⟩
  show (create_progress_bar p 20).data = _
  simp only [create_progress_bar, pyTrunc, Nat.cast_ofNat]
  rw [if_pos hq0]
  have h2 : ((20 : ℤ) - ⌊20 * p / 100⌋).toNat =
      20 - (⌊20 * p / 100⌋).toNat := by omega
  rw [h2]

/-- Witness for C8 at 50 percent: ten filled and ten empty cells. -/
theorem claim_C8_witness :
    (create_progress_bar 50).data =
      List.replicate 10 '█' ++ List.replicate 10 '░' ∧
    (⌊(20 : ℚ) * 50 / 100⌋).toNat = 10 := by
  have h := claim_C8 50 (by norm_num) (by norm_num)
  have h10i : ⌊(20 : ℚ) * 50 / 100⌋ = (10 : ℤ) := by norm_num
  have h10 : (⌊(20 : ℚ) * 50 / 100⌋).toNat = 10 := by rw [h10i]; rfl
  exact ⟨by rw [h.1, h10], h10⟩

/-- C3 (amended): a `frame=` line whose `speed=` field is absent or parses
to `0` renders no ETA and is passed through raw (overwriting in place) —
provided that any bitrate capture present on the line parses as a float
(a malformed decimal capture such as `bitrate=.kbits/s` raises instead). -/
theorem claim_C3 (info : MediaInfo) (sz : Option ℕ) (l : String)
    (hf : List.isPrefixOf "frame=".data (pyStrip l.data) = true)
    (hsp : searchA trySpeed (pyStrip l.data) = none ∨
      ∃ g, searchA trySpeed (pyStrip l.data) = some g ∧ pyFloatL g = some 0)
    (hbr : ∀ g, searchA tryBitrate (pyStrip l.data) = some g →
      (pyFloatL g).isSome) :
    observe info sz l = some (.overwriteRaw ⟨pyStrip l.data⟩) := by
  rw [observe_frameLine info sz l hf]
  have hsp0 : floatOrZero (searchA trySpeed (pyStrip l.data)) = some 0 := by
    rcases hsp with h | ⟨g, hg, hp⟩
    · rw [h]; rfl
    · rw [hg]; exact hp
  have hbr0 : ∃ br, floatOrZero (searchA tryBitrate (pyStrip l.data)) =
      some br := by
    rcases hB : searchA tryBitrate (pyStrip l.data) with _ | g
    · exact ⟨0, rfl⟩
    · have hS := hbr g hB
      rcases hO : pyFloatL g with _ | q
      · rw [hO] at hS; exact absurd hS (by simp)
      · exact ⟨q, hO⟩
  obtain ⟨br, hbr1⟩ := hbr0
  exact observeFrame_noRender info sz _ 0 br hsp0 (lt_irrefl 0) hbr1

/-- Witness for C3 on the speed-less line `frame=1`. -/
theorem claim_C3_witness :
    observe ⟨some 100, some 1, some 100⟩ none "frame=1" =
      some (.overwriteRaw "frame=1") := by
  have h := claim_C3 ⟨some 100, some 1, some 100⟩ none "frame=1" (by decide)
    (Or.inl (by decide))
    (by
      intro g hg
      rw [show searchA tryBitrate (pyStrip "frame=1".data) = none
        from by decide] at hg
      cases hg)
  rw [h]
  decide

/-- Counterexample to C3 as stated: `frame=1 bitrate=.kbits/s` starts with
`frame=` and has no `speed=` field, yet it is not passed through — the
bitrate capture `.` makes `float` raise, aborting the whole encode via the
outer handler (modelled by `none`). -/
theorem claim_C3_counterexample :
    searchA trySpeed (pyStrip "frame=1 bitrate=.kbits/s".data) = none ∧
    observe ⟨some 100, some 1, some 100⟩ none "frame=1 bitrate=.kbits/s" =
      none :=
  ⟨by decide, by decide⟩

/-- C10: on a recognized `frame=` line rendered with frame count, total
frames, frame rate and positive speed known, each absent optional field is
displayed with its fixed default — fps `0`, size `0` (KiB, hence `0` MB),
bitrate `0`, elapsed time `"00:00:00"` — and the render still proceeds. -/
theorem claim_C10 (info : MediaInfo) (sz : Option ℕ) (l : String) (cf : ℕ)
    (tf : ℤ) (fr sp : ℚ) (g : List Char)
    (hf : List.isPrefixOf "frame=".data (pyStrip l.data) = true)
    (hframe : searchA tryFrame (pyStrip l.data) = some cf)
    (htf : info.frame_count = some tf) (htf0 : tf ≠ 0)
    (hfr : info.fps = some fr) (hfr0 : fr ≠ 0)
    (hg : searchA trySpeed (pyStrip l.data) = some g)
    (hsp : pyFloatL g = some sp) (hsp0 : 0 < sp)
    (hfps : searchA tryFps (pyStrip l.data) = none)
    (hsize : searchA trySize (pyStrip l.data) = none)
    (htime : searchA tryTime (pyStrip l.data) = none)
    (hbit : searchA tryBitrate (pyStrip l.data) = none) :
    (renderDataOf (observe info sz l)).isSome = true ∧
    (renderDataOf (observe info sz l)).map RenderData.current_fps = some 0 ∧
    (renderDataOf (observe info sz l)).map RenderData.current_size_mb =
      some 0 ∧
    (renderDataOf (observe info sz l)).map RenderData.current_bitrate =
      some 0 ∧
    (renderDataOf (observe info sz l)).map RenderData.encoded_time =
      some "00:00:00" := by
  have hsp1 : floatOrZero (searchA trySpeed (pyStrip l.data)) = some sp := by
    rw [hg]; exact hsp
  have hbr1 : floatOrZero (searchA tryBitrate (pyStrip l.data)) = some 0 := by
    rw [hbit]; rfl
  rw [observe_frameLine info sz l hf,
    observeFrame_render info sz _ cf tf fr sp 0 hsp1 hsp0 hbr1 hframe htf
      htf0 hfr hfr0]
  simp [renderDataOf, hfps, hsize, htime, encodedTimeStr]

/-- Witness for C10 on `frame=10 speed=2.0x` with fps, size, time and
bitrate all absent. -/
theorem claim_C10_witness :
    (renderDataOf (observe ⟨some 100, some 25, some 4⟩ none
        "frame=10 speed=2.0x")).isSome = true ∧
    (renderDataOf (observe ⟨some 100, some 25, some 4⟩ none
        "frame=10 speed=2.0x")).map RenderData.current_fps = some 0 ∧
    (renderDataOf (observe ⟨some 100, some 25, some 4⟩ none
        "frame=10 speed=2.0x")).map RenderData.current_size_mb = some 0 ∧
    (renderDataOf (observe ⟨some 100, some 25, some 4⟩ none
        "frame=10 speed=2.0x")).map RenderData.current_bitrate = some 0 ∧
    (renderDataOf (observe ⟨some 100, some 25, some 4⟩ none
        "frame=10 speed=2.0x")).map RenderData.encoded_time =
      some "00:00:00" := by
  refine claim_C10 ⟨some 100, some 25, some 4⟩ none "frame=10 speed=2.0x"
    10 100 25 2 "2.0".data (by decide) (by decide) rfl (by decide) rfl
    (by decide) (by decide) ?_ (by norm_num) (by decide) (by decide)
    (by decide) (by decide)
  rw [pyFloatL, show pyFloatParts "2.0".data =
    some ⟨true, ['2'], ['0'], true, []⟩ from by decide]
  have d2 : digitsVal ['2'] = 2 := by decide
  have d0 : digitsVal ['0'] = 0 := by decide
  simp [FloatParts.toQ, d2, d0]

/-- C4 (amended): probing never raises — a failed tool invocation, any
exception inside the parse (including a frame rate `N/D` with `D = 0`)
yields the all-absent `MediaInfo`; but a probe output whose duration field
is missing (a single-field output) is not an exception: it yields the
frame rate present with duration and total frames absent. -/
theorem claim_C4 (s : String) (a b : List Char) (f : ℚ) :
    (get_video_info none = ⟨none, none, none⟩) ∧
    (parseProbe s = none → get_video_info (some s) = ⟨none, none, none⟩) ∧
    (((probeFields s).headD []).contains '/' = true →
      splitOnChar '/' ((probeFields s).headD []) = [a, b] →
      pyIntL b = some 0 → get_video_info (some s) = ⟨none, none, none⟩) ∧
    ((probeFields s).drop 1 = [] →
      parseRate ((probeFields s).headD []) = some f →
      get_video_info (some s) = ⟨none, some f, none⟩) := by
  refine ⟨rfl, fun h => ?_, fun hc hsplit hb0 => ?_, fun hdrop hrate => ?_⟩
  · simp only [get_video_info, h]
    rfl
  · have hrate : parseRate ((probeFields s).headD []) = none := by
      simp only [parseRate, hc, if_true]
      rw [hsplit]
      rcases hA : pyIntL a with _ | n <;> simp [hA, hb0]
    simp only [get_video_info, parseProbe, hrate]
    rfl
  · simp only [get_video_info, parseProbe, hrate, hdrop]
    rfl

/-- Witness for C4 at the zero-denominator probe output `30/0,10`. -/
theorem claim_C4_witness :
    get_video_info (some "30/0,10") = ⟨none, none, none⟩ :=
  (claim_C4 "30/0,10" "30".data "0".data 0).2.2.1 (by decide) (by decide)
    (by decide)

/-- Counterexample to C4 as stated: the single-field probe output `25/1`
has its duration field missing, yet the result is not all-absent — the
frame rate is present. -/
theorem claim_C4_counterexample :
    (probeFields "25/1").length = 1 ∧
    get_video_info (some "25/1") = ⟨none, some 25, none⟩ ∧
    (⟨none, some 25, none⟩ : MediaInfo) ≠ ⟨none, none, none⟩ := by
  refine ⟨by decide, ?_, by simp⟩
  have hrate : parseRate ((probeFields "25/1").headD []) = some 25 := by
    simp only [parseRate,
      show ((probeFields "25/1").headD []).contains '/' = true from by decide,
      if_true,
      show splitOnChar '/' ((probeFields "25/1").headD []) =
        ["25".data, "1".data] from by decide,
      show pyIntL "25".data = some 25 from by decide,
      show pyIntL "1".data = some 1 from by decide]
    norm_num
  simp only [get_video_info, parseProbe, hrate,
    show (probeFields "25/1").drop 1 = [] from by decide]
  rfl

/-- C5 (amended): `total_frames` equals `floor(duration × frame_rate)`
when both fields parse successfully to non-zero values whose product is
non-negative (there `int` truncation agrees with `floor`); it is absent
whenever either field is missing or unparsable — and also, beyond the
claim as stated, whenever either parsed value equals `0` (Python
truthiness), which is the uncovered case. -/
theorem claim_C5 (s : String) (f dq : ℚ) (d : List Char)
    (rest : List (List Char)) :
    (parseRate ((probeFields s).headD []) = some f →
      (probeFields s).drop 1 = d :: rest → pyFloatL d = some dq →
      ((dq ≠ 0 → f ≠ 0 → 0 ≤ dq * f →
        (get_video_info (some s)).frame_count = some ⌊dq * f⌋) ∧
       ((dq = 0 ∨ f = 0) →
        (get_video_info (some s)).frame_count = none))) ∧
    (parseRate ((probeFields s).headD []) = none →
      (get_video_info (some s)).frame_count = none) ∧
    ((probeFields s).drop 1 = [] →
      (get_video_info (some s)).frame_count = none) ∧
    ((probeFields s).drop 1 = d :: rest → pyFloatL d = none →
      (get_video_info (some s)).frame_count = none) := by
  refine ⟨fun hr hd hq => ⟨fun h1 h2 h3 => ?_, fun h0 => ?_⟩,
    fun hr => ?_, fun hd => ?_, fun hd hq => ?_⟩
  · simp only [get_video_info, parseProbe, hr, hd, hq, Option.getD_some]
    rw [if_pos ⟨h1, h2⟩]
    unfold pyTrunc
    rw [if_pos h3]
  · simp only [get_video_info, parseProbe, hr, hd, hq, Option.getD_some]
    rw [if_neg (by tauto)]
  · simp only [get_video_info, parseProbe, hr]
    rfl
  · rcases hR : parseRate ((probeFields s).headD []) with _ | fps <;>
      simp only [get_video_info, parseProbe, hR, hd] <;> rfl
  · rcases hR : parseRate ((probeFields s).headD []) with _ | fps <;>
      simp only [get_video_info, parseProbe, hR, hd, hq] <;> rfl

/-- Witness for C5 at the probe output `30/1,2.0`: 30 fps for 2 seconds
gives 60 total frames. -/
theorem claim_C5_witness :
    (get_video_info (some "30/1,2.0")).frame_count = some 60 := by
  have hr : parseRate ((probeFields "30/1,2.0").headD []) = some 30 := by
    simp only [parseRate,
      show ((probeFields "30/1,2.0").headD []).contains '/' = true
        from by decide,
      if_true,
      show splitOnChar '/' ((probeFields "30/1,2.0").headD []) =
        ["30".data, "1".data] from by decide,
      show pyIntL "30".data = some 30 from by decide,
      show pyIntL "1".data = some 1 from by decide]
    norm_num
  have hq : pyFloatL (((probeFields "30/1,2.0").drop 1).headD []) =
      some 2 := by
    rw [show ((probeFields "30/1,2.0").drop 1).headD [] = "2.0".data
      from by decide]
    rw [pyFloatL, show pyFloatParts "2.0".data =
      some ⟨true, ['2'], ['0'], true, []⟩ from by decide]
    have d2 : digitsVal ['2'] = 2 := by decide
    have d0 : digitsVal ['0'] = 0 := by decide
    simp [FloatParts.toQ, d2, d0]
  have h := ((claim_C5 "30/1,2.0" 30 2 "2.0".data []).1 hr (by decide)
    (by rw [show "2.0".data = ((probeFields "30/1,2.0").drop 1).headD []
      from by decide]; exact hq)).1 (by norm_num) (by norm_num) (by norm_num)
  rw [h]
  norm_num

/-- Counterexample to C5 as stated: in `0/1,10.0` both fields parse
successfully (frame rate `0`, duration `10`) and
`floor(duration × frame_rate) = 0`, yet `total_frames` is absent rather
than `some 0`. -/
theorem claim_C5_counterexample :
    parseRate ((probeFields "0/1,10.0").headD []) = some 0 ∧
    pyFloatL (((probeFields "0/1,10.0").drop 1).headD []) = some 10 ∧
    ⌊(10 : ℚ) * 0⌋ = 0 ∧
    (get_video_info (some "0/1,10.0")).frame_count = none := by
  have hr : parseRate ((probeFields "0/1,10.0").headD []) = some 0 := by
    simp only [parseRate,
      show ((probeFields "0/1,10.0").headD []).contains '/' = true
        from by decide,
      if_true,
      show splitOnChar '/' ((probeFields "0/1,10.0").headD []) =
        ["0".data, "1".data] from by decide,
      show pyIntL "0".data = some 0 from by decide,
      show pyIntL "1".data = some 1 from by decide]
    norm_num
  have hq : pyFloatL (((probeFields "0/1,10.0").drop 1).headD []) =
      some 10 := by
    rw [show ((probeFields "0/1,10.0").drop 1).headD [] = "10.0".data
      from by decide]
    rw [pyFloatL, show pyFloatParts "10.0".data =
      some ⟨true, ['1', '0'], ['0'], true, []⟩ from by decide]
    have d10 : digitsVal ['1', '0'] = 10 := by decide
    have d0 : digitsVal ['0'] = 0 := by decide
    simp [FloatParts.toQ, d10, d0]
  refine ⟨hr, hq, by norm_num, ?_⟩
  simp only [get_video_info, parseProbe, hr,
    show (probeFields "0/1,10.0").drop 1 = ["10.0".data] from by decide,
    show pyFloatL "10.0".data = some 10 from by
      rw [show "10.0".data = ((probeFields "0/1,10.0").drop 1).headD []
        from by decide]; exact hq,
    Option.getD_some]
  rw [if_neg (by norm_num)]

/-- Evaluation scheme for `fmt1` once the rounded value is known. -/
theorem fmt1_eval (q : ℚ) (n : ℤ) (h : roundHalfEven (q * 10) = n) :
    fmt1 q = ⟨(if n < 0 then ['-'] else []) ++ natToChars (n.natAbs / 10) ++
      '.' :: natToChars (n.natAbs % 10)⟩ := by
  unfold fmt1
  rw [h]

/-- `roundHalfEven` is the identity on integers. -/
theorem roundHalfEven_intCast (n : ℤ) : roundHalfEven (n : ℚ) = n := by
  unfold roundHalfEven
  rw [Int.floor_intCast]
  norm_num

/-- C9: a non-zero encoder exit code yields failure and no log; exit code
0 with the output file missing yields no log; exit code 0 with the output
present yields the log, whose three newline-separated lines carry the
original size in MB, the encoded size in MB, and the percentage reduction
`(original - encoded) / original * 100`, each through the one-decimal
formatter; concretely, 1000 MB shrunk to 400 MB logs
`Reduction: 60.0%`. -/
theorem claim_C9 (rc : ℤ) (ex : Bool) (os es : ℕ) :
    (rc ≠ 0 → encodeOutcome rc ex os es = none) ∧
    encodeOutcome 0 false os es = none ∧
    (0 < os → ∃ log : String, encodeOutcome 0 true os es = some log ∧
      splitOnChar '\n' log.data =
        ["Original: ".data ++ (fmt1 ((os : ℚ) / 1048576)).data ++ "MB".data,
         "Encoded: ".data ++ (fmt1 ((es : ℚ) / 1048576)).data ++ "MB".data,
         "Reduction: ".data ++
           (fmt1 (((os : ℚ) - (es : ℚ)) / (os : ℚ) * 100)).data ++
           "%".data]) ∧
    encodeOutcome 0 true (1000 * 1048576) (400 * 1048576) =
      some "Original: 1000.0MB\nEncoded: 400.0MB\nReduction: 60.0%" := by
  refine ⟨fun h => by simp [encodeOutcome, h], by simp [encodeOutcome], ?_, ?_⟩
  · intro hos
    have hne : ¬ (os = 0) := by omega
    refine ⟨⟨"Original: ".data ++ (fmt1 ((os : ℚ) / 1048576)).data ++
        "MB\nEncoded: ".data ++ (fmt1 ((es : ℚ) / 1048576)).data ++
        "MB\nReduction: ".data ++
        (fmt1 (((os : ℚ) - (es : ℚ)) / (os : ℚ) * 100)).data ++
        "%".data⟩, by simp [encodeOutcome, calculate_size_reduction, hne], ?_⟩
    show splitOnChar '\n'
      ("Original: ".data ++ (fmt1 ((os : ℚ) / 1048576)).data ++
        "MB\nEncoded: ".data ++ (fmt1 ((es : ℚ) / 1048576)).data ++
        "MB\nReduction: ".data ++
        (fmt1 (((os : ℚ) - (es : ℚ)) / (os : ℚ) * 100)).data ++
        "%".data) = _
    rw [show "MB\nEncoded: ".data = "MB".data ++ '\n' :: "Encoded: ".data
        from by decide,
      show "MB\nReduction: ".data = "MB".data ++ '\n' :: "Reduction: ".data
        from by decide]
    have hassoc :
        "Original: ".data ++ (fmt1 ((os : ℚ) / 1048576)).data ++
          ("MB".data ++ '\n' :: "Encoded: ".data) ++
          (fmt1 ((es : ℚ) / 1048576)).data ++
          ("MB".data ++ '\n' :: "Reduction: ".data) ++
          (fmt1 (((os : ℚ) - (es : ℚ)) / (os : ℚ) * 100)).data ++
          "%".data =
        ("Original: ".data ++ (fmt1 ((os : ℚ) / 1048576)).data ++ "MB".data)
          ++ '\n' ::
          (("Encoded: ".data ++ (fmt1 ((es : ℚ) / 1048576)).data ++
            "MB".data) ++ '\n' ::
            ("Reduction: ".data ++
              (fmt1 (((os : ℚ) - (es : ℚ)) / (os : ℚ) * 100)).data ++
              "%".data)) := by
      simp [List.append_assoc]
    rw [hassoc, splitOnChar_append, splitOnChar_append, splitOnChar_not_mem]
    · intro hmem
      rcases List.mem_append.mp hmem with hc | hc
      · rcases List.mem_append.mp hc with hd | hd
        · exact absurd hd (by decide)
        · exact fmt1_no_newline _ hd
      · exact absurd hc (by decide)
    · intro hmem
      rcases List.mem_append.mp hmem with hc | hc
      · rcases List.mem_append.mp hc with hd | hd
        · exact absurd hd (by decide)
        · exact fmt1_no_newline _ hd
      · exact absurd hc (by decide)
    · intro hmem
      rcases List.mem_append.mp hmem with hc | hc
      · rcases List.mem_append.mp hc with hd | hd
        · exact absurd hd (by decide)
        · exact fmt1_no_newline _ hd
      · exact absurd hc (by decide)
  · have h1 : ((1000 * 1048576 : ℕ) : ℚ) / 1048576 = ((1000 : ℤ) : ℚ) := by
      push_cast
      norm_num
    have h2 : ((400 * 1048576 : ℕ) : ℚ) / 1048576 = ((400 : ℤ) : ℚ) := by
      push_cast
      norm_num
    have h3 : (((1000 * 1048576 : ℕ) : ℚ) - ((400 * 1048576 : ℕ) : ℚ)) /
        ((1000 * 1048576 : ℕ) : ℚ) * 100 = ((60 : ℤ) : ℚ) := by
      push_cast
      norm_num
    have hf1 : fmt1 (((1000 * 1048576 : ℕ) : ℚ) / 1048576) = "1000.0" := by
      rw [fmt1_eval _ 10000 (by
        rw [h1, show ((1000 : ℤ) : ℚ) * 10 = ((10000 : ℤ) : ℚ) from by norm_num,
          roundHalfEven_intCast])]
      decide
    have hf2 : fmt1 (((400 * 1048576 : ℕ) : ℚ) / 1048576) = "400.0" := by
      rw [fmt1_eval _ 4000 (by
        rw [h2, show ((400 : ℤ) : ℚ) * 10 = ((4000 : ℤ) : ℚ) from by norm_num,
          roundHalfEven_intCast])]
      decide
    have hf3 : fmt1 ((((1000 * 1048576 : ℕ) : ℚ) -
        ((400 * 1048576 : ℕ) : ℚ)) / ((1000 * 1048576 : ℕ) : ℚ) * 100) =
        "60.0" := by
      rw [fmt1_eval _ 600 (by
        rw [h3, show ((60 : ℤ) : ℚ) * 10 = ((600 : ℤ) : ℚ) from by norm_num,
          roundHalfEven_intCast])]
      decide
    simp only [encodeOutcome, calculate_size_reduction,
      show ¬ ((1000 * 1048576 : ℕ) = 0) from by norm_num,
      show ¬ ((0 : ℤ) ≠ 0) from by norm_num, if_false, ite_true, ite_false,
      hf1, hf2, hf3]
    decide

/-- Witness for C9: failure on exit code 1, and the concrete
1000 MB to 400 MB log. -/
theorem claim_C9_witness :
    encodeOutcome 1 true 100 50 = none ∧
    encodeOutcome 0 true (1000 * 1048576) (400 * 1048576) =
      some "Original: 1000.0MB\nEncoded: 400.0MB\nReduction: 60.0%" :=
  ⟨(claim_C9 1 true 100 50).1 (by norm_num),
    (claim_C9 0 true (1000 * 1048576) (400 * 1048576)).2.2.2⟩

end VideoEncoder
